import Mathlib

/-!
Verification of the core of the ETS2 light sync engine: the Home Assistant
light client (`ha_client.py`), the shared-memory telemetry decoder
(`telemetry.py`), the geo/timezone resolver with its distance cache
(`location.py`), the built-in day/night light curve (`light_curve.py`),
and the sync worker's poll loop (`app/sync_worker.py`).

Python float arithmetic is modelled exactly: rationals where the source
computes with finite decimal/integer data, and real numbers where the
source calls `math.cos` / `math.pi`.  Python's `round` (banker's rounding,
ties to even) is modelled by `pyRoundQ` / `pyRoundR`.

The file is organised as the embedded definitions first, followed by the
theorems about them.
-/

namespace Ets2LightSync

/-- Python's built-in `round` on an exact rational: round half to even. -/
def pyRoundQ (q : ℚ) : ℤ :=
  if Int.fract q = 1/2 then (if 2 ∣ ⌊q⌋ then ⌊q⌋ else ⌊q⌋ + 1) else round q

/-! ## ha_client.py — Home Assistant REST client

A request is the service name (`"turn_on"` / `"turn_off"`) plus the JSON
payload.  The payload dict is modelled with `Option` fields: `none` means
the key is absent from the dict sent to Home Assistant. -/

/-- Configuration fields of `HomeAssistantClient.__init__` relevant to light
commands (entity id, transition, default brightness and colour temp). -/
structure HAConfig where
  entity_id : String
  transition : ℚ
  default_brightness : ℤ
  default_color_temp_k : ℤ
deriving DecidableEq

/-- The JSON payload of a light-service call; `none` = key absent. -/
structure Payload where
  entity_id : String
  brightness : Option ℤ
  color_temp : Option ℤ
  transition : ℚ
deriving DecidableEq

/-- A light-service REST call: service name plus payload. -/
structure Request where
  service : String
  payload : Payload
deriving DecidableEq

/-- Model of `_kelvin_to_mireds` from `ha_client.py`:
`round(1_000_000 / kelvin)`. -/
def _kelvin_to_mireds (kelvin : ℤ) : ℤ :=
  pyRoundQ ((1000000 : ℚ) / (kelvin : ℚ))

/-- Model of `HomeAssistantClient.set_light`: `brightness == 0` issues
`turn_off` with only entity id and transition; otherwise `turn_on` with
brightness, mireds and transition. -/
def set_light (cfg : HAConfig) (brightness color_temp_kelvin : ℤ) : Request :=
  if brightness = 0 then
    { service := "turn_off"
      payload := { entity_id := cfg.entity_id, brightness := none,
                   color_temp := none, transition := cfg.transition } }
  else
    { service := "turn_on"
      payload := { entity_id := cfg.entity_id, brightness := some brightness,
                   color_temp := some (_kelvin_to_mireds color_temp_kelvin),
                   transition := cfg.transition } }

/-- Model of `HomeAssistantClient.reset_to_default`: always `turn_on` with
the default brightness, the default colour temperature in mireds, and a
hard-coded transition of 2 seconds. -/
def reset_to_default (cfg : HAConfig) : Request :=
  { service := "turn_on"
    payload := { entity_id := cfg.entity_id,
                 brightness := some cfg.default_brightness,
                 color_temp := some (_kelvin_to_mireds cfg.default_color_temp_k),
                 transition := 2 } }

/-! ## telemetry.py — shared-memory telemetry decoder

The decoder copies `_SHARED_MEM_READ_SIZE = 2224` bytes out of the named
mapping and decodes little-endian fields at fixed offsets with
`struct.unpack_from`.  The mapping is modelled as `Option (List ℕ)`:
`none` covers `OpenFileMappingW` / `MapViewOfFile` failing (mapping absent).
A buffer shorter than 2224 bytes stands for the decode-exception path
(`struct.error` on a short read), which the source absorbs and turns into
`None`.  The two `double` fields are carried as their raw little-endian
64-bit patterns, since the decoder copies the bits verbatim. -/

def _SDK_ACTIVE_OFFSET : ℕ := 0
def _PAUSED_OFFSET : ℕ := 4
def _TIME_ABS_OFFSET : ℕ := 64
def _TRUCK_X_OFFSET : ℕ := 2200
def _TRUCK_Z_OFFSET : ℕ := 2216
def _SHARED_MEM_READ_SIZE : ℕ := 2224

/-- Little-endian unsigned integer from `n` bytes at offset `off`. -/
def leBytes (data : List ℕ) (off n : ℕ) : ℕ :=
  (List.range n).foldr (fun i acc => data.getD (off + i) 0 + 256 * acc) 0

/-- Decoded telemetry record (the `Telemetry` NamedTuple in `telemetry.py`).
`truck_x` / `truck_z` hold the raw IEEE-754 bit patterns of the doubles. -/
structure Telemetry where
  game_time : ℕ
  paused : Bool
  truck_x : ℕ
  truck_z : ℕ
deriving DecidableEq

/-- Model of `_read_shared_memory` from `telemetry.py`: `none` when the
mapping is absent, when the buffer is too short to decode (the absorbed
decode exception), or when the SDK-active byte is zero; otherwise the
decoded snapshot with `game_time = time_abs % 1440`. -/
def _read_shared_memory (mapping : Option (List ℕ)) : Option Telemetry :=
  match mapping with
  | none => none
  | some data =>
    if data.length < _SHARED_MEM_READ_SIZE then none
    else if data.getD _SDK_ACTIVE_OFFSET 0 = 0 then none
    else some
      { game_time := leBytes data _TIME_ABS_OFFSET 4 % 1440
        paused := data.getD _PAUSED_OFFSET 0 != 0
        truck_x := leBytes data _TRUCK_X_OFFSET 8
        truck_z := leBytes data _TRUCK_Z_OFFSET 8 }

/-! ## location.py — geo/timezone resolver with distance cache

Coordinates are Python floats that may be NaN; `PyFloat` separates the NaN
case from finite values (modelled as exact rationals).  The module-level
cache (`_cached_x`, `_cached_z`, `_cached_tz_name`, `_cached_offset_min`)
becomes an explicit `GeoCache` value threaded through the call.  The two
external effects inside the `try` block are oracles: `tzAt` models
`TimezoneFinder().timezone_at` (with `none` covering both "no timezone
found" and a raised exception), and `offsetOf` models the
`ZoneInfo`/`utcoffset` computation for "now" (with `none` covering a
raised exception).  The source compares `math.hypot dx dz < 5000.0`; with
both sides nonnegative this is equivalent to `dx^2 + dz^2 < 5000^2`, which
is how the comparison is embedded. -/

/-- A Python float coordinate: NaN or a finite value. -/
inductive PyFloat
  | nan : PyFloat
  | val : ℚ → PyFloat
deriving DecidableEq

/-- The module-level cache of `location.py`. -/
structure GeoCache where
  cached_x : Option ℚ
  cached_z : Option ℚ
  cached_tz_name : Option String
  cached_offset_min : ℤ
deriving DecidableEq

/-- The re-query distance threshold `_CACHE_THRESHOLD_UNITS` from
`location.py`. -/
def _CACHE_THRESHOLD_UNITS : ℚ := 5000

/-- Model of `ets2_to_latlon`: two-point affine calibration from ETS2 world
coordinates to (latitude, longitude). -/
def ets2_to_latlon (x z : ℚ) : ℚ × ℚ :=
  ((48.8566 : ℚ) + (z - (-62000)) * (((52.5200 : ℚ) - 48.8566) / ((-39200 : ℚ) - (-62000))),
   (2.3522 : ℚ) + (x - (-31600)) * (((13.4050 : ℚ) - 2.3522) / ((17400 : ℚ) - (-31600))))

/-- Model of `get_timezone_offset` from `location.py`, with the external
lookups as oracles and the module cache explicit.  Returns the
(offset, tz-name) result together with the cache state after the call. -/
def get_timezone_offset (tzAt : ℚ → ℚ → Option String)
    (offsetOf : String → Option ℤ) (cache : GeoCache)
    (truck_x truck_z : PyFloat) : (ℤ × Option String) × GeoCache :=
  match truck_x, truck_z with
  | .nan, _ => ((0, none), cache)
  | _, .nan => ((0, none), cache)
  | .val x, .val z =>
    let hit : Bool :=
      match cache.cached_x, cache.cached_z with
      | some cx, some cz =>
        decide ((x - cx) ^ 2 + (z - cz) ^ 2 < _CACHE_THRESHOLD_UNITS ^ 2)
      | _, _ => false
    if hit then ((cache.cached_offset_min, cache.cached_tz_name), cache)
    else
      let ll := ets2_to_latlon x z
      let lat := max (-90) (min 90 ll.1)
      let lon := max (-180) (min 180 ll.2)
      match tzAt lat lon with
      | none => ((0, none), ⟨some x, some z, none, 0⟩)
      | some name =>
        match offsetOf name with
        | none => ((0, none), ⟨some x, some z, none, 0⟩)
        | some off => ((off, some name), ⟨some x, some z, some name, off⟩)

/-! ## light_curve.py — the built-in day/night curve

The source computes with `math.cos` / `math.pi` on floats; this is embedded
over exact real numbers (`Real.cos`, `Real.pi`), with Python's `round`
(ties to even) as `pyRoundR`.  The bounds proved about `calculate_light`
are robust to the float-versus-real cosine difference. -/

open scoped Classical in
/-- Python's built-in `round` on an exact real: round half to even. -/
noncomputable def pyRoundR (x : ℝ) : ℤ :=
  if Int.fract x = 1/2 then (if 2 ∣ ⌊x⌋ then ⌊x⌋ else ⌊x⌋ + 1) else round x

/-- Transition boundaries and light values from `light_curve.py`. -/
def _NIGHT_END_MIN : ℤ := 5 * 60 + 30
def _DAWN_END_MIN : ℤ := 7 * 60
def _DUSK_START_MIN : ℤ := 18 * 60
def _NIGHT_START_MIN : ℤ := 20 * 60
def NIGHT_BRIGHTNESS : ℤ := 13
def DAY_BRIGHTNESS : ℤ := 255
def NIGHT_KELVIN : ℤ := 2200
def DAWN_KELVIN : ℤ := 3200
def DAY_KELVIN : ℤ := 5500

/-- Model of `_smooth` from `light_curve.py`: cosine-based smooth step. -/
noncomputable def _smooth (t : ℝ) : ℝ := (1 - Real.cos (t * Real.pi)) / 2

/-- Model of `calculate_light` from `light_curve.py`: the built-in
day/night curve. -/
noncomputable def calculate_light (game_time_minutes : ℤ) : ℤ × ℤ :=
  let t := game_time_minutes % 1440
  if _DAWN_END_MIN ≤ t ∧ t < _DUSK_START_MIN then
    (DAY_BRIGHTNESS, DAY_KELVIN)
  else if _NIGHT_END_MIN ≤ t ∧ t < _DAWN_END_MIN then
    let p := _smooth (((t : ℝ) - (_NIGHT_END_MIN : ℤ)) / (((_DAWN_END_MIN : ℤ) : ℝ) - ((_NIGHT_END_MIN : ℤ) : ℝ)))
    (pyRoundR (((NIGHT_BRIGHTNESS : ℤ) : ℝ) + p * (((DAY_BRIGHTNESS : ℤ) : ℝ) - ((NIGHT_BRIGHTNESS : ℤ) : ℝ))),
     pyRoundR (((NIGHT_KELVIN : ℤ) : ℝ) + p * (((DAY_KELVIN : ℤ) : ℝ) - ((NIGHT_KELVIN : ℤ) : ℝ))))
  else if _DUSK_START_MIN ≤ t ∧ t < _NIGHT_START_MIN then
    let p := _smooth (((t : ℝ) - (_DUSK_START_MIN : ℤ)) / (((_NIGHT_START_MIN : ℤ) : ℝ) - ((_DUSK_START_MIN : ℤ) : ℝ)))
    (pyRoundR (((DAY_BRIGHTNESS : ℤ) : ℝ) - p * (((DAY_BRIGHTNESS : ℤ) : ℝ) - ((NIGHT_BRIGHTNESS : ℤ) : ℝ))),
     pyRoundR (((DAY_KELVIN : ℤ) : ℝ) - p * (((DAY_KELVIN : ℤ) : ℝ) - ((NIGHT_KELVIN : ℤ) : ℝ))))
  else (NIGHT_BRIGHTNESS, NIGHT_KELVIN)

/-! ## app/sync_worker.py — the sync engine poll loop

`SyncWorker.run` is modelled by its observable trace: the status signals it
emits and the calls it issues to the Home Assistant client.  One loop
iteration consumes one poll result (`Option ℤ` = the game time, or `none`
when telemetry is unavailable) and carries the `game_was_running` flag.
An external stop request makes the poll sequence finite: `runTrace polls`
is the full trace of a run that was stopped after `polls.length`
iterations (the loop exits after the current sleep slice, then the cleanup
block runs unconditionally).  The model starts after configuration
validation has succeeded (the error path emits only an error status and
never reaches the loop). -/

/-- An observable action of the sync worker: a status signal, a
`reset_to_default()` call, a `set_light()` call, or a `light_updated`
signal. -/
inductive Event
  | status : String → Event
  | resetCall : Event
  | applyCall : ℤ → ℤ → Event
  | lightUpdated : ℤ → ℤ → ℤ → Event

/-- One iteration of the `while self._running` loop in `SyncWorker.run`:
given the `game_was_running` flag and the poll result, returns the new
flag and the events of that iteration, in program order. -/
noncomputable def loopIter (game_was_running : Bool) (game_time : Option ℤ) :
    Bool × List Event :=
  match game_time with
  | none =>
    if game_was_running then (false, [Event.resetCall, Event.status "waiting"])
    else (game_was_running, [])
  | some t =>
    let pre := if game_was_running then [] else [Event.status "connected"]
    let bk := calculate_light t
    (true, pre ++ [Event.applyCall bk.1 bk.2, Event.lightUpdated t bk.1 bk.2])

/-- The poll loop run over a finite sequence of poll results. -/
noncomputable def runLoop : Bool → List (Option ℤ) → List Event
  | _, [] => []
  | gwr, p :: ps => (loopIter gwr p).2 ++ runLoop (loopIter gwr p).1 ps

/-- The full trace of `SyncWorker.run` for a run stopped after the given
poll results: the initial "running" status, the loop events, then the
unconditional cleanup (`reset_to_default()` followed by "stopped"). -/
noncomputable def runTrace (polls : List (Option ℤ)) : List Event :=
  Event.status "running" ::
    (runLoop false polls ++ [Event.resetCall, Event.status "stopped"])

/-! ## Theorems -/

/-- C7: `set_light` with brightness 0 issues a `turn_off` request whose
payload carries only the entity id and the transition duration (brightness
and colour-temp keys absent); with nonzero brightness it issues a `turn_on`
request carrying brightness, the Kelvin value converted to mireds, and the
transition duration. -/
theorem set_light_off_on_paths (cfg : HAConfig) (b k : ℤ) :
    (b = 0 → set_light cfg b k =
      { service := "turn_off"
        payload := { entity_id := cfg.entity_id, brightness := none,
                     color_temp := none, transition := cfg.transition } }) ∧
    (b ≠ 0 → set_light cfg b k =
      { service := "turn_on"
        payload := { entity_id := cfg.entity_id, brightness := some b,
                     color_temp := some (_kelvin_to_mireds k),
                     transition := cfg.transition } }) := by
  constructor
  · intro hb
    simp [set_light, hb]
  · intro hb
    simp [set_light, hb]

/-- Witness for C7: both branches evaluated at a concrete configuration. -/
theorem set_light_off_on_paths_witness :
    set_light ⟨"light.luz", 1, 255, 4000⟩ 0 4000 =
      { service := "turn_off"
        payload := { entity_id := "light.luz", brightness := none,
                     color_temp := none, transition := 1 } } ∧
    set_light ⟨"light.luz", 1, 255, 4000⟩ 200 4000 =
      { service := "turn_on"
        payload := { entity_id := "light.luz", brightness := some 200,
                     color_temp := some (_kelvin_to_mireds 4000),
                     transition := 1 } } :=
  ⟨(set_light_off_on_paths ⟨"light.luz", 1, 255, 4000⟩ 0 4000).1 rfl,
   (set_light_off_on_paths ⟨"light.luz", 1, 255, 4000⟩ 200 4000).2 (by decide)⟩

/-- C8: the Kelvin-to-mireds conversion equals `round(1_000_000 / kelvin)`
for every positive kelvin, and maps 4000 to 250 and 2700 to 370. -/
theorem kelvin_to_mireds_round :
    (∀ k : ℤ, 0 < k → _kelvin_to_mireds k = pyRoundQ ((1000000 : ℚ) / (k : ℚ))) ∧
    _kelvin_to_mireds 4000 = 250 ∧ _kelvin_to_mireds 2700 = 370 := by
  refine ⟨fun k _ => rfl, ?_, ?_⟩
  · have h : ((1000000 : ℚ) / ((4000 : ℤ) : ℚ)) = 250 := by norm_num
    rw [_kelvin_to_mireds, h, pyRoundQ]
    norm_num [Int.fract]
  · have h : ((1000000 : ℚ) / ((2700 : ℤ) : ℚ)) = 10000 / 27 := by norm_num
    have hfl : ⌊(10000 / 27 : ℚ)⌋ = 370 := by
      rw [Int.floor_eq_iff]
      norm_num
    have hrd : ⌊(10000 / 27 + 1 / 2 : ℚ)⌋ = 370 := by
      rw [Int.floor_eq_iff]
      norm_num
    rw [_kelvin_to_mireds, h, pyRoundQ, if_neg, round_eq, hrd]
    rw [Int.fract, hfl]
    norm_num

/-- Witness for C8: the universally quantified part applied at kelvin 4000. -/
theorem kelvin_to_mireds_round_witness :
    (0 : ℤ) < 4000 ∧
      _kelvin_to_mireds 4000 = pyRoundQ ((1000000 : ℚ) / ((4000 : ℤ) : ℚ)) :=
  ⟨by decide, kelvin_to_mireds_round.1 4000 (by decide)⟩

/-- C10: `reset_to_default` always issues a `turn_on` request, with a
hard-coded transition of 2 seconds instead of the configured transition,
for every configuration — including configurations whose default
brightness is 0 (the brightness-0 turn-off convention does not apply). -/
theorem reset_to_default_always_turn_on (cfg : HAConfig) :
    reset_to_default cfg =
      { service := "turn_on"
        payload := { entity_id := cfg.entity_id,
                     brightness := some cfg.default_brightness,
                     color_temp := some (_kelvin_to_mireds cfg.default_color_temp_k),
                     transition := 2 } } ∧
    (reset_to_default cfg).service = "turn_on" ∧
    (reset_to_default cfg).payload.transition = 2 := by
  exact ⟨rfl, rfl, rfl⟩

/-- C2: the telemetry read is total (never raises): it returns `none` when
the mapping is absent, when decoding fails (short buffer), or when the
SDK-active byte at offset 0 is zero; otherwise it returns a snapshot whose
`game_time` is the little-endian u32 at offset 64 reduced mod 1440 (hence
always below 1440), whose `paused` flag is the byte at offset 4 read as a
bool, and whose truck coordinates are the 64-bit values at offsets 2200
and 2216. -/
theorem read_shared_memory_spec :
    _read_shared_memory none = none ∧
    (∀ data : List ℕ, data.length < 2224 → _read_shared_memory (some data) = none) ∧
    (∀ data : List ℕ, 2224 ≤ data.length → data.getD 0 0 = 0 →
      _read_shared_memory (some data) = none) ∧
    (∀ data : List ℕ, 2224 ≤ data.length → data.getD 0 0 ≠ 0 →
      _read_shared_memory (some data) = some
        { game_time := leBytes data 64 4 % 1440
          paused := data.getD 4 0 != 0
          truck_x := leBytes data 2200 8
          truck_z := leBytes data 2216 8 }) ∧
    (∀ data : List ℕ, ∀ t : Telemetry,
      _read_shared_memory (some data) = some t → t.game_time < 1440) := by
  refine ⟨rfl, ?_, ?_, ?_, ?_⟩
  · intro data hlen
    simp [_read_shared_memory, _SHARED_MEM_READ_SIZE, hlen]
  · intro data hlen hsdk
    rw [List.getD_eq_getElem?_getD] at hsdk
    simp [_read_shared_memory, _SHARED_MEM_READ_SIZE, _SDK_ACTIVE_OFFSET,
      Nat.not_lt.mpr hlen, hsdk]
  · intro data hlen hsdk
    rw [List.getD_eq_getElem?_getD] at hsdk
    simp [_read_shared_memory, _SHARED_MEM_READ_SIZE, _SDK_ACTIVE_OFFSET,
      _PAUSED_OFFSET, _TIME_ABS_OFFSET, _TRUCK_X_OFFSET, _TRUCK_Z_OFFSET,
      Nat.not_lt.mpr hlen, hsdk, List.getD_eq_getElem?_getD]
  · intro data t h
    by_cases hlen : data.length < _SHARED_MEM_READ_SIZE
    · simp [_read_shared_memory, hlen] at h
    · by_cases hsdk : data.getD _SDK_ACTIVE_OFFSET 0 = 0
      · rw [List.getD_eq_getElem?_getD] at hsdk
        simp [_read_shared_memory, hlen, hsdk] at h
      · rw [List.getD_eq_getElem?_getD] at hsdk
        simp [_read_shared_memory, hlen, hsdk] at h
        rw [← h]
        exact Nat.mod_lt _ (by norm_num)

set_option maxRecDepth 100000 in
/-- Witness for C2: the decoder evaluated on a concrete 2224-byte buffer of
all-ones (SDK active, paused, `time_abs = 0x01010101`). -/
theorem read_shared_memory_spec_witness :
    2224 ≤ (List.replicate 2224 1).length ∧
    (List.replicate 2224 1).getD 0 0 ≠ 0 ∧
    _read_shared_memory (some (List.replicate 2224 1)) = some
      { game_time := 769, paused := true,
        truck_x := 72340172838076673, truck_z := 72340172838076673 } := by
  have hlen : 2224 ≤ (List.replicate 2224 1).length := by
    rw [List.length_replicate]
  have hsdk : (List.replicate 2224 1).getD 0 0 ≠ 0 := by
    decide
  refine ⟨hlen, hsdk, ?_⟩
  have h := read_shared_memory_spec.2.2.2.1 (List.replicate 2224 1) hlen hsdk
  rw [h]
  decide

/-- C6: when either coordinate is NaN, `get_timezone_offset` returns
`(0, none)` and the cache after the call equals the cache before it, for
every lookup oracle and every cache state. -/
theorem resolve_nan_returns_zero_cache_unchanged
    (tzAt : ℚ → ℚ → Option String) (offsetOf : String → Option ℤ)
    (cache : GeoCache) (x z : PyFloat)
    (h : x = PyFloat.nan ∨ z = PyFloat.nan) :
    get_timezone_offset tzAt offsetOf cache x z = ((0, none), cache) := by
  rcases h with h | h
  · subst h
    cases z <;> rfl
  · subst h
    cases x <;> rfl

/-- Witness for C6: a NaN first coordinate with a populated cache. -/
theorem resolve_nan_returns_zero_cache_unchanged_witness :
    get_timezone_offset (fun _ _ => none) (fun _ => none)
      ⟨some 1, some 2, some "Europe/Berlin", 60⟩ PyFloat.nan (PyFloat.val 5) =
      ((0, none), ⟨some 1, some 2, some "Europe/Berlin", 60⟩) :=
  resolve_nan_returns_zero_cache_unchanged (fun _ _ => none) (fun _ => none)
    ⟨some 1, some 2, some "Europe/Berlin", 60⟩ PyFloat.nan (PyFloat.val 5)
    (Or.inl rfl)

/-- C5: with a cached position `(px, pz)` and a finite query position
`(x, z)` whose squared distance from it is below the 5000-unit threshold,
`get_timezone_offset` returns exactly the cached (offset, tz-name) tuple
and leaves the cache unchanged — for every lookup oracle, so the lookup is
never consulted and a second call closer than the threshold returns the
identical cached result even if the lookup would fail. -/
theorem resolve_cache_hit_short_circuits
    (tzAt : ℚ → ℚ → Option String) (offsetOf : String → Option ℤ)
    (cache : GeoCache) (px pz x z : ℚ)
    (hx : cache.cached_x = some px) (hz : cache.cached_z = some pz)
    (hdist : (x - px) ^ 2 + (z - pz) ^ 2 < 5000 ^ 2) :
    get_timezone_offset tzAt offsetOf cache (PyFloat.val x) (PyFloat.val z) =
      ((cache.cached_offset_min, cache.cached_tz_name), cache) := by
  have hhit : ((x - px) ^ 2 + (z - pz) ^ 2 < _CACHE_THRESHOLD_UNITS ^ 2) := by
    rw [_CACHE_THRESHOLD_UNITS]
    exact hdist
  simp [get_timezone_offset, hx, hz, hhit]

/-- Witness for C5: a concrete cache at (0, 0) holding UTC+120 /
`"Europe/Paris"`, queried at (3000, 0) — within the 5000-unit threshold —
against oracles that would fail if consulted. -/
theorem resolve_cache_hit_short_circuits_witness :
    (⟨some 0, some 0, some "Europe/Paris", 120⟩ : GeoCache).cached_x = some 0 ∧
    ((3000 : ℚ) - 0) ^ 2 + ((0 : ℚ) - 0) ^ 2 < 5000 ^ 2 ∧
    get_timezone_offset (fun _ _ => none) (fun _ => none)
      ⟨some 0, some 0, some "Europe/Paris", 120⟩
      (PyFloat.val 3000) (PyFloat.val 0) =
      ((120, some "Europe/Paris"), ⟨some 0, some 0, some "Europe/Paris", 120⟩) :=
  ⟨rfl, by norm_num,
   resolve_cache_hit_short_circuits (fun _ _ => none) (fun _ => none)
     ⟨some 0, some 0, some "Europe/Paris", 120⟩ 0 0 3000 0 rfl rfl (by norm_num)⟩

theorem le_pyRoundR {n : ℤ} {x : ℝ} (h : (n : ℝ) ≤ x) : n ≤ pyRoundR x := by
  have hf : n ≤ ⌊x⌋ := Int.le_floor.mpr h
  rw [pyRoundR]
  split
  · split
    · exact hf
    · omega
  · rw [round_eq]
    exact le_trans hf (Int.floor_mono (by linarith))

theorem pyRoundR_le {n : ℤ} {x : ℝ} (h : x ≤ (n : ℝ)) : pyRoundR x ≤ n := by
  rw [pyRoundR]
  split
  · rename_i hfr
    have hx : ((⌊x⌋ : ℝ) + 1/2) = x := by
      have h2 := Int.floor_add_fract x
      rw [hfr] at h2
      exact h2
    have hlt : (⌊x⌋ : ℝ) < (n : ℝ) := by linarith
    have hlt2 : ⌊x⌋ < n := by exact_mod_cast hlt
    split
    · omega
    · omega
  · rw [round_eq]
    have h1 : ⌊x + 1/2⌋ < n + 1 := Int.floor_lt.mpr (by push_cast; linarith)
    omega

theorem smooth_mem_unit (t : ℝ) : 0 ≤ _smooth t ∧ _smooth t ≤ 1 := by
  have h1 := Real.neg_one_le_cos (t * Real.pi)
  have h2 := Real.cos_le_one (t * Real.pi)
  rw [_smooth]
  constructor <;> linarith

theorem blend_up_mem (lo hi : ℤ) (a : ℝ) (h : (lo : ℝ) ≤ (hi : ℝ)) :
    lo ≤ pyRoundR ((lo : ℝ) + _smooth a * ((hi : ℝ) - (lo : ℝ))) ∧
    pyRoundR ((lo : ℝ) + _smooth a * ((hi : ℝ) - (lo : ℝ))) ≤ hi := by
  obtain ⟨h0, h1⟩ := smooth_mem_unit a
  constructor
  · exact le_pyRoundR (by nlinarith)
  · exact pyRoundR_le (by nlinarith)

theorem blend_down_mem (lo hi : ℤ) (a : ℝ) (h : (lo : ℝ) ≤ (hi : ℝ)) :
    lo ≤ pyRoundR ((hi : ℝ) - _smooth a * ((hi : ℝ) - (lo : ℝ))) ∧
    pyRoundR ((hi : ℝ) - _smooth a * ((hi : ℝ) - (lo : ℝ))) ≤ hi := by
  obtain ⟨h0, h1⟩ := smooth_mem_unit a
  constructor
  · exact le_pyRoundR (by nlinarith)
  · exact pyRoundR_le (by nlinarith)

/-- C9: for every integer input time the built-in curve returns a
brightness in [13, 255] and a colour temperature in [2200, 5500]; the
brightness is never 0, so a sync loop driven by the built-in curve always
takes the `turn_on` path of `set_light` and never the brightness-0
`turn_off` path. -/
theorem calculate_light_bounds (t : ℤ) :
    13 ≤ (calculate_light t).1 ∧ (calculate_light t).1 ≤ 255 ∧
    2200 ≤ (calculate_light t).2 ∧ (calculate_light t).2 ≤ 5500 ∧
    (calculate_light t).1 ≠ 0 ∧
    ∀ cfg : HAConfig,
      (set_light cfg (calculate_light t).1 (calculate_light t).2).service = "turn_on" := by
  have main : 13 ≤ (calculate_light t).1 ∧ (calculate_light t).1 ≤ 255 ∧
      2200 ≤ (calculate_light t).2 ∧ (calculate_light t).2 ≤ 5500 := by
    simp only [calculate_light]
    split
    · exact ⟨by norm_num [DAY_BRIGHTNESS], by norm_num [DAY_BRIGHTNESS],
        by norm_num [DAY_KELVIN], by norm_num [DAY_KELVIN]⟩
    · split
      · exact ⟨(blend_up_mem 13 255 _ (by norm_num)).1,
          (blend_up_mem 13 255 _ (by norm_num)).2,
          (blend_up_mem 2200 5500 _ (by norm_num)).1,
          (blend_up_mem 2200 5500 _ (by norm_num)).2⟩
      · split
        · exact ⟨(blend_down_mem 13 255 _ (by norm_num)).1,
            (blend_down_mem 13 255 _ (by norm_num)).2,
            (blend_down_mem 2200 5500 _ (by norm_num)).1,
            (blend_down_mem 2200 5500 _ (by norm_num)).2⟩
        · exact ⟨by norm_num [NIGHT_BRIGHTNESS], by norm_num [NIGHT_BRIGHTNESS],
            by norm_num [NIGHT_KELVIN], by norm_num [NIGHT_KELVIN]⟩
  obtain ⟨h13, h255, hk1, hk2⟩ := main
  refine ⟨h13, h255, hk1, hk2, by omega, ?_⟩
  intro cfg
  have hne : (calculate_light t).1 ≠ 0 := by omega
  simp [set_light, hne]

theorem stopped_not_in_loopIter (gwr : Bool) (p : Option ℤ) :
    Event.status "stopped" ∉ (loopIter gwr p).2 := by
  cases p <;> cases gwr <;> simp [loopIter]

theorem stopped_not_in_runLoop (polls : List (Option ℤ)) :
    ∀ gwr, Event.status "stopped" ∉ runLoop gwr polls := by
  induction polls with
  | nil =>
    intro gwr
    simp [runLoop]
  | cons p ps ih =>
    intro gwr
    rw [runLoop]
    rw [List.mem_append]
    push_neg
    exact ⟨stopped_not_in_loopIter gwr p, ih _⟩

/-- C1: for every run of the engine that entered its poll loop, stopping
after any finite poll history (hence from any non-terminal state —
Connected or Waiting alike) produces a trace that is the loop events
followed by exactly one `reset_to_default()` call and then the final
"stopped" status; "stopped" is never emitted during the loop, and the
last event of the whole trace is the "stopped" status. -/
theorem sync_stop_resets_once_then_stops (polls : List (Option ℤ)) :
    runTrace polls =
      (Event.status "running" :: runLoop false polls) ++
        [Event.resetCall, Event.status "stopped"] ∧
    (∀ gwr, Event.status "stopped" ∉ runLoop gwr polls) ∧
    (runTrace polls).getLast? = some (Event.status "stopped") := by
  refine ⟨by simp [runTrace], stopped_not_in_runLoop polls, ?_⟩
  have h : runTrace polls =
      (Event.status "running" :: (runLoop false polls ++ [Event.resetCall])) ++
        [Event.status "stopped"] := by
    simp [runTrace]
  rw [h, List.getLast?_concat]

/-- C3: a poll that yields no telemetry while the game was connected
(`game_was_running = true`) issues exactly one `reset_to_default()` call
and only afterwards emits the "waiting" status, with no `set_light()`
call on that iteration. -/
theorem disconnect_resets_before_waiting :
    loopIter true none = (false, [Event.resetCall, Event.status "waiting"]) ∧
    ∀ b k : ℤ, Event.applyCall b k ∉ (loopIter true none).2 := by
  refine ⟨rfl, ?_⟩
  intro b k
  simp [loopIter]

end Ets2LightSync
